import Mathlib

/-!
Shallow embedding of the JNI bridge sources
`PulseNetwork/core/native/src/main/cpp/jni/llama_jni.cpp` and
`PulseNetwork/core/native/src/main/cpp/jni/whisper_jni.cpp`, together with
theorems settling the specified contracts against this code.

Modelling conventions: native pointers are `Option Nat` (`none` is
`nullptr`); the process-wide globals of each translation unit form a state
record that every native call threads through explicitly; `jint`/`jlong`
are `Int` (no overflowing arithmetic occurs in this code), `jfloat` is
`Float`, `jstring` is `String`, a string array is `List String`, and a
returned `jobject` that can be `nullptr` is an `Option`.  The `rand()`
stream used by `nativeGetEmbedding` and the contents of `/proc/meminfo`
read by `nativeGetAvailableMemory` are passed in as explicit parameters.
-/

namespace LlamaJni

/-- The file-scope globals of `llama_jni.cpp`: `g_model`, `g_ctx` and
`g_is_generating`. -/
structure LlamaState where
  g_model : Option Nat
  g_ctx : Option Nat
  g_is_generating : Bool

/-- The static initial state: both pointers `nullptr`, the flag `false`. -/
def initialState : LlamaState :=
  ⟨none, none, false⟩

/-- `nativeLoadModel`: converts and releases the path string, logs, leaves
every global untouched (the llama.cpp calls are commented out) and returns
`JNI_TRUE` unconditionally. -/
def nativeLoadModel (s : LlamaState) (model_path : String)
    (context_length threads : Int) : LlamaState × Bool :=
  (s, true)

/-- `nativeIsModelLoaded`: `g_model != nullptr`. -/
def nativeIsModelLoaded (s : LlamaState) : Bool :=
  s.g_model.isSome

/-- `nativeGenerate`: converts and releases the prompt, logs, and returns a
fixed placeholder string; state and all parameters are ignored (the
llama.cpp generation call is commented out). -/
def nativeGenerate (s : LlamaState) (prompt : String) (max_tokens : Int)
    (temperature top_p : Float) (top_k : Int) : LlamaState × String :=
  (s, "[JNI Bridge] 模型未实际加载，这是占位响应。")

/-- `nativeGenerateStream`: builds a five-element string array with fixed
contents; state and all parameters are ignored. -/
def nativeGenerateStream (s : LlamaState) (prompt : String) (max_tokens : Int)
    (temperature top_p : Float) (top_k : Int) : LlamaState × List String :=
  (s, ["这是", "模拟", "的", "流式", "响应。"])

/-- `nativeStopGeneration`: sets `g_is_generating = false` and logs;
nothing else. -/
def nativeStopGeneration (s : LlamaState) : LlamaState :=
  { s with g_is_generating := false }

/-- The hardcoded `const int dimension = 384` of `nativeGetEmbedding`. -/
def dimension : Nat := 384

/-- `nativeGetEmbedding`: fills a `dimension`-element float array with
`(float)(rand() % 200 - 100) / 100.0f`, where `rand` is the sequence of
(non-negative) values returned by the successive `rand()` calls.  The
state is neither read nor written, and no failure path exists. -/
def nativeGetEmbedding (s : LlamaState) (text : String) (rand : Nat → Nat) :
    LlamaState × List Float :=
  (s, (List.range dimension).map
    (fun i => Float.ofInt ((rand i : Int) % 200 - 100) / 100.0))

/-- The `ModelInfo` record built by `nativeGetModelInfo`, with the fields
of its Java constructor signature. -/
structure ModelInfo where
  name : String
  parameterCount : Int
  contextLength : Int
  embeddingSize : Int
  quantization : String
  fileSizeMB : Int

/-- `nativeGetModelInfo`: constructs a fixed record, regardless of the
state. -/
def nativeGetModelInfo (s : LlamaState) : ModelInfo :=
  ⟨"Unknown Model", 0, 2048, 384, "Unknown", 0⟩

/-- `nativeUnloadModel`: sets `g_ctx` and `g_model` to `nullptr` and logs;
`g_is_generating` is untouched. -/
def nativeUnloadModel (s : LlamaState) : LlamaState :=
  { s with g_ctx := none, g_model := none }

/-- C `isspace` in the default locale, as used by `sscanf` whitespace
skipping. -/
def isCSpace (c : Char) : Bool :=
  c = ' ' || c = '\t' || c = '\n' || c = '\r' ||
    c = Char.ofNat 11 || c = Char.ofNat 12

/-- Matching of the literal part of a `sscanf` format against the input:
returns the remaining input on success, `none` on the first mismatching
character. -/
def matchLiteral : List Char → List Char → Option (List Char)
  | [], cs => some cs
  | _ :: _, [] => none
  | p :: ps, c :: cs => if p = c then matchLiteral ps cs else none

/-- Numeric value of a run of decimal digits. -/
def digitsVal (ds : List Char) : Nat :=
  ds.foldl (fun a c => 10 * a + (c.toNat - 48)) 0

/-- The `%ld` conversion of `sscanf`: skip whitespace, then an optional
sign followed by at least one digit; `none` models a matching failure
(so a `sscanf` return value different from 1). -/
def parseLong (cs : List Char) : Option Int :=
  let cs2 := cs.dropWhile (fun c => isCSpace c)
  match cs2 with
  | '-' :: rest =>
    let ds := rest.takeWhile (fun c => c.isDigit)
    if ds.isEmpty then none else some (-(digitsVal ds : Int))
  | '+' :: rest =>
    let ds := rest.takeWhile (fun c => c.isDigit)
    if ds.isEmpty then none else some (digitsVal ds)
  | other =>
    let ds := other.takeWhile (fun c => c.isDigit)
    if ds.isEmpty then none else some (digitsVal ds)

/-- `sscanf(line, "MemAvailable: %ld kB", &availableKB) == 1`, together
with the assigned value.  The return value of this `sscanf` counts only
its single `%ld` conversion, so the trailing `" kB"` of the format cannot
affect it. -/
def scanMemAvailable (line : String) : Option Int :=
  match matchLiteral "MemAvailable:".toList line.toList with
  | none => none
  | some rest => parseLong rest

/-- The `fgets`/`sscanf` loop of `nativeGetAvailableMemory`: the value of
`availableKB` after the loop.  It starts at 0, is assigned only by a
successful `sscanf`, and the loop breaks at the first line on which
`sscanf` returns 1. -/
def scanLoop : List String → Int
  | [] => 0
  | l :: rest =>
    match scanMemAvailable l with
    | some k => k
    | none => scanLoop rest

/-- `nativeGetAvailableMemory`: `meminfo` is the list of lines of
`/proc/meminfo`, or `none` when `fopen` fails (in which case the function
returns 0 at once).  Otherwise it returns `availableKB / 1024`; C integer
division truncates toward zero, as does `Int.div`, the `/` of `Int`. -/
def nativeGetAvailableMemory (meminfo : Option (List String)) : Int :=
  match meminfo with
  | none => 0
  | some lines => scanLoop lines / 1024

end LlamaJni

namespace WhisperJni

/-- The file-scope global of `whisper_jni.cpp`: `g_whisper_ctx`. -/
structure WhisperState where
  g_whisper_ctx : Option Nat

/-- The static initial state: `g_whisper_ctx = nullptr`. -/
def initialState : WhisperState :=
  ⟨none⟩

/-- `nativeLoadModel`: converts and releases the path string, logs, leaves
the global untouched (the whisper.cpp call is commented out) and returns
`JNI_TRUE` unconditionally. -/
def nativeLoadModel (s : WhisperState) (model_path : String) :
    WhisperState × Bool :=
  (s, true)

/-- `nativeIsModelLoaded`: `g_whisper_ctx != nullptr`. -/
def nativeIsModelLoaded (s : WhisperState) : Bool :=
  s.g_whisper_ctx.isSome

/-- A `TranscriptionSegment` as built through its Java constructor
(text, startTimeMs, endTimeMs, confidence). -/
structure TranscriptionSegment where
  text : String
  startTimeMs : Int
  endTimeMs : Int
  confidence : Float

/-- A `TranscriptionResult` as built through its Java constructor
(text, segments, processingTimeMs, language, confidence). -/
structure TranscriptionResult where
  text : String
  segments : List TranscriptionSegment
  processingTimeMs : Int
  language : String
  confidence : Float

/-- `nativeTranscribe`: reads and releases the samples and language, logs,
then builds and returns a fixed simulated result containing a single
segment; the sample data, sample count and state play no role, except
that the language argument is copied into the result. -/
def nativeTranscribe (s : WhisperState) (samples : List Float)
    (language : String) : WhisperState × TranscriptionResult :=
  (s, ⟨"[JNI] 模拟转录文本",
       [⟨"[JNI] 模拟转录结果", 0, 3000, 0.95⟩],
       500, language, 0.9⟩)

/-- `nativeTranscribeFile`: converts and releases both strings, logs, and
returns `nullptr` (the comment in the source reads: return null to mean
unimplemented). -/
def nativeTranscribeFile (s : WhisperState) (file_path language : String) :
    WhisperState × Option TranscriptionResult :=
  (s, none)

/-- `nativeUnloadModel`: sets `g_whisper_ctx` to `nullptr` and logs. -/
def nativeUnloadModel (s : WhisperState) : WhisperState :=
  ⟨none⟩

end WhisperJni

/-- The value of `availableKB` after the scan loop is 0 when no line of the
file matches `MemAvailable: %ld`. -/
theorem scanLoop_eq_zero (lines : List String)
    (h : ∀ l ∈ lines, LlamaJni.scanMemAvailable l = none) :
    LlamaJni.scanLoop lines = 0 := by
  induction lines with
  | nil => rfl
  | cons a as ih =>
    have ha : LlamaJni.scanMemAvailable a = none := h a (List.mem_cons_self a as)
    have has : ∀ l ∈ as, LlamaJni.scanMemAvailable l = none :=
      fun l hl => h l (List.mem_cons_of_mem a hl)
    simp [LlamaJni.scanLoop, ha, ih has]

/-- The scan loop stops at the first line whose `sscanf` succeeds and keeps
the value assigned there. -/
theorem scanLoop_first_match (pre : List String) (l : String)
    (post : List String) (k : Int)
    (hpre : ∀ l2 ∈ pre, LlamaJni.scanMemAvailable l2 = none)
    (hl : LlamaJni.scanMemAvailable l = some k) :
    LlamaJni.scanLoop (pre ++ l :: post) = k := by
  induction pre with
  | nil => simp [LlamaJni.scanLoop, hl]
  | cons a as ih =>
    have ha : LlamaJni.scanMemAvailable a = none := hpre a (List.mem_cons_self a as)
    have has : ∀ l2 ∈ as, LlamaJni.scanMemAvailable l2 = none :=
      fun l2 h2 => hpre l2 (List.mem_cons_of_mem a h2)
    simp [List.cons_append, LlamaJni.scanLoop, ha, ih has]

/-- Claim C1: `nativeLoadModel` reports success yet never assigns
`g_model`, so from the unloaded initial state `nativeIsModelLoaded` is
still `false` after a load of any valid path — refuting the first half of
the claim on the code; `nativeIsModelLoaded` after `nativeUnloadModel` is
`false` from every state, confirming the second half. -/
theorem loadModel_leaves_isModelLoaded_false :
    ∀ (s : LlamaJni.LlamaState) (path : String) (cl th : Int),
      LlamaJni.nativeLoadModel s path cl th = (s, true) ∧
      LlamaJni.nativeIsModelLoaded
        (LlamaJni.nativeLoadModel LlamaJni.initialState path cl th).1 = false ∧
      LlamaJni.nativeIsModelLoaded (LlamaJni.nativeUnloadModel s) = false :=
  fun _ _ _ _ => ⟨rfl, rfl, rfl⟩

/-- Claim C2: with `g_model == nullptr` (the initial state),
`nativeGenerate` does not fail with `ModelNotLoaded`: for every prompt and
parameter set it returns the fixed placeholder string as a successful
result — refuting the claim on the code. -/
theorem generate_returns_placeholder :
    LlamaJni.initialState.g_model = none ∧
    ∀ (prompt : String) (mt : Int) (t tp : Float) (tk : Int),
      (LlamaJni.nativeGenerate LlamaJni.initialState prompt mt t tp tk).2 =
        "[JNI Bridge] 模型未实际加载，这是占位响应。" :=
  ⟨rfl, fun _ _ _ _ _ => rfl⟩

/-- Claim C3: neither loader validates anything — the llama loader returns
`true` for the empty path and for every path from every state, and so does
the whisper loader — refuting the claim that load failures are signalled
and that path non-emptiness is validated. -/
theorem loadModel_always_succeeds :
    (∀ (s : LlamaJni.LlamaState) (cl th : Int),
      (LlamaJni.nativeLoadModel s "" cl th).2 = true) ∧
    (∀ (s : LlamaJni.LlamaState) (path : String) (cl th : Int),
      (LlamaJni.nativeLoadModel s path cl th).2 = true) ∧
    (∀ (s : WhisperJni.WhisperState) (path : String),
      (WhisperJni.nativeLoadModel s path).2 = true) :=
  ⟨fun _ _ _ => rfl, fun _ _ _ _ => rfl, fun _ _ => rfl⟩

/-- Claim C4: `nativeTranscribeFile` returns the null object (`none`) for
every state, path and language, not an explicit Unimplemented failure
value — refuting the claim on the code. -/
theorem transcribeFile_returns_null :
    ∀ (s : WhisperJni.WhisperState) (path lang : String),
      (WhisperJni.nativeTranscribeFile s path lang).2 = none :=
  fun _ _ _ => rfl

/-- Claim C5: for every state, prompt and parameter set the
`nativeGenerateStream` fragments concatenate to the fixed string
`这是模拟的流式响应。`, which is not the string `nativeGenerate` returns for
the same inputs — refuting the claim on the code. -/
theorem stream_concat_ne_generate :
    ∀ (s : LlamaJni.LlamaState) (prompt : String) (mt : Int)
      (t tp : Float) (tk : Int),
      String.join (LlamaJni.nativeGenerateStream s prompt mt t tp tk).2 =
        "这是模拟的流式响应。" ∧
      String.join (LlamaJni.nativeGenerateStream s prompt mt t tp tk).2 ≠
        (LlamaJni.nativeGenerate s prompt mt t tp tk).2 := by
  intro s prompt mt t tp tk
  have h1 : String.join ["这是", "模拟", "的", "流式", "响应。"] =
      "这是模拟的流式响应。" := by decide
  have h2 : ("这是模拟的流式响应。" : String) ≠
      "[JNI Bridge] 模型未实际加载，这是占位响应。" := by decide
  exact ⟨h1, fun hc => h2 (h1.symm.trans hc)⟩

/-- Claim C6: `nativeGetEmbedding` always returns a vector whose length
equals the `embeddingSize` reported by `nativeGetModelInfo` — but from
every state, including the unloaded initial state where the claim requires
a failure, and both numbers are the hardcoded constant 384 rather than a
property of a loaded model. -/
theorem getEmbedding_hardcoded_dimension :
    LlamaJni.initialState.g_model = none ∧
    ∀ (s : LlamaJni.LlamaState) (text : String) (rand : Nat → Nat),
      ((LlamaJni.nativeGetEmbedding s text rand).2.length : Int) =
        (LlamaJni.nativeGetModelInfo s).embeddingSize ∧
      (LlamaJni.nativeGetEmbedding s text rand).2.length = 384 := by
  refine ⟨rfl, fun s text rand => ⟨?_, ?_⟩⟩
  · simp [LlamaJni.nativeGetEmbedding, LlamaJni.nativeGetModelInfo,
      LlamaJni.dimension]
  · simp [LlamaJni.nativeGetEmbedding, LlamaJni.dimension]

/-- Claim C7: with `g_whisper_ctx == nullptr` and an empty sample array,
`nativeTranscribe` still returns the fabricated successful
`TranscriptionResult` (with the constant simulated text and segment),
instead of rejecting the empty input or failing for the missing model —
refuting the claim on the code. -/
theorem transcribe_returns_fabricated :
    WhisperJni.initialState.g_whisper_ctx = none ∧
    ∀ (s : WhisperJni.WhisperState) (lang : String),
      (WhisperJni.nativeTranscribe s [] lang).2 =
        ⟨"[JNI] 模拟转录文本",
         [⟨"[JNI] 模拟转录结果", 0, 3000, 0.95⟩], 500, lang, 0.9⟩ :=
  ⟨rfl, fun _ _ => rfl⟩

/-- Claim C8: `nativeGetAvailableMemory` returns 0 when `/proc/meminfo`
cannot be opened, returns 0 when no line of it matches
`MemAvailable: %ld`, and otherwise returns the value of the first
`MemAvailable` line, in kB, divided by 1024. -/
theorem getAvailableMemory_spec :
    LlamaJni.nativeGetAvailableMemory none = 0 ∧
    (∀ lines : List String,
      (∀ l ∈ lines, LlamaJni.scanMemAvailable l = none) →
      LlamaJni.nativeGetAvailableMemory (some lines) = 0) ∧
    (∀ (pre : List String) (l : String) (post : List String) (k : Int),
      (∀ l2 ∈ pre, LlamaJni.scanMemAvailable l2 = none) →
      LlamaJni.scanMemAvailable l = some k →
      LlamaJni.nativeGetAvailableMemory (some (pre ++ l :: post)) = k / 1024) := by
  refine ⟨rfl, ?_, ?_⟩
  · intro lines h
    show LlamaJni.scanLoop lines / 1024 = 0
    rw [scanLoop_eq_zero lines h]
    decide
  · intro pre l post k hpre hl
    show LlamaJni.scanLoop (pre ++ l :: post) / 1024 = k / 1024
    rw [scanLoop_first_match pre l post k hpre hl]

/-- Witness for `getAvailableMemory_spec` on a concrete meminfo image:
4096 kB available becomes 4 MB. -/
theorem getAvailableMemory_spec_witness :
    LlamaJni.nativeGetAvailableMemory
      (some ["MemTotal: 8192 kB", "MemAvailable: 4096 kB", "SwapTotal: 0 kB"]) = 4 := by
  have h := getAvailableMemory_spec.2.2 ["MemTotal: 8192 kB"]
    "MemAvailable: 4096 kB" ["SwapTotal: 0 kB"] 4096 (by decide) (by decide)
  exact h.trans (by decide)

/-- Claim C9: `nativeStopGeneration` only clears the `g_is_generating`
flag: it is idempotent, total (it can never signal an error), and leaves
`g_model` and `g_ctx` unchanged from every state. -/
theorem stopGeneration_idempotent :
    ∀ s : LlamaJni.LlamaState,
      LlamaJni.nativeStopGeneration (LlamaJni.nativeStopGeneration s) =
        LlamaJni.nativeStopGeneration s ∧
      (LlamaJni.nativeStopGeneration s).g_model = s.g_model ∧
      (LlamaJni.nativeStopGeneration s).g_ctx = s.g_ctx ∧
      (LlamaJni.nativeStopGeneration s).g_is_generating = false :=
  fun _ => ⟨rfl, rfl, rfl, rfl⟩

/-- Claim C10: `nativeGenerateStream` returns the same fixed sequence of
five fragments for every prompt, every `maxTokens` (zero and negative
values included), every temperature, topP and topK, without touching the
state: its output is completely independent of all of its inputs. -/
theorem generateStream_constant :
    ∀ (s : LlamaJni.LlamaState) (pa pb : String) (ma mb : Int)
      (ta tpa tb tpb : Float) (ka kb : Int),
      LlamaJni.nativeGenerateStream s pa ma ta tpa ka =
        (s, ["这是", "模拟", "的", "流式", "响应。"]) ∧
      (LlamaJni.nativeGenerateStream s pa ma ta tpa ka).2 =
        (LlamaJni.nativeGenerateStream s pb mb tb tpb kb).2 :=
  fun _ _ _ _ _ _ _ _ _ _ _ => ⟨rfl, rfl⟩
